import Mathlib

/-!
Verification development for the intrdrm generation-orchestration core.

The TypeScript sources are shallowly embedded:
* text is `List Char`;
* JSON values are the inductive `Json`, with numbers as exact rationals
  (every ECMAScript JSON number literal denotes a rational; the claims under
  study never depend on binary floating-point rounding);
* asynchronous calls are modelled by deterministic oracles (`Nat → …`)
  giving the outcome of the k-th call;
* thrown exceptions are `Except.error` with the thrown message.
-/

set_option maxRecDepth 20000

/-! ## Character and string utilities -/

/-- JSON whitespace (RFC 8259 / `JSON.parse`): space, tab, line feed,
carriage return only. -/
def jsonWsChar (c : Char) : Bool :=
  c = ' ' || c = '\t' || c = '\n' || c = '\r'

/-- ECMAScript `\s` / `String.prototype.trim` whitespace class. -/
def jsWsChar (c : Char) : Bool :=
  c = ' ' || c = '\t' || c = '\n' || c = '\r' || c = '\x0b' || c = '\x0c' ||
  c.val = 0xa0 || c.val = 0x1680 || (0x2000 ≤ c.val && c.val ≤ 0x200a) ||
  c.val = 0x2028 || c.val = 0x2029 || c.val = 0x202f || c.val = 0x205f ||
  c.val = 0x3000 || c.val = 0xfeff

/-- Drop leading JSON whitespace. -/
def skipJsonWs (cs : List Char) : List Char :=
  cs.dropWhile (fun c => jsonWsChar c)

/-- ECMAScript `String.prototype.trim`. -/
def trimJs (cs : List Char) : List Char :=
  ((cs.dropWhile (fun c => jsWsChar c)).reverse.dropWhile
    (fun c => jsWsChar c)).reverse

/-- Does `cs` start with `pat`? -/
def listStartsWith : List Char → List Char → Bool
  | [], _ => true
  | _ :: _, [] => false
  | p :: ps, c :: cs => p = c && listStartsWith ps cs

/-- Index of the first occurrence of `pat` as a contiguous sublist of `cs`. -/
def findSub (pat : List Char) : List Char → Option Nat
  | [] => if listStartsWith pat [] then some 0 else none
  | c :: rest =>
    if listStartsWith pat (c :: rest) then some 0
    else (findSub pat rest).map (· + 1)

/-- Does `pat` occur as a contiguous sublist of `cs`? -/
def hasSub (pat : List Char) (cs : List Char) : Bool :=
  (findSub pat cs).isSome

/-- ASCII lower-casing, as `String.prototype.toLowerCase` acts on the ASCII
range (the non-retryable error markers searched for are all ASCII). -/
def toLowerCh (c : Char) : Char :=
  if 'A' ≤ c && c ≤ 'Z' then Char.ofNat (c.val.toNat + 32) else c

/-- Lower-case a whole string. -/
def toLowerStr (cs : List Char) : List Char :=
  cs.map toLowerCh

/-! ## JSON values and the `JSON.parse` model -/

/-- A parsed ECMAScript JSON value.  Objects keep their members in source
order (duplicate keys possible; `JSON.parse` keeps the last binding, which
is what `jget` looks up). -/
inductive Json where
  | null
  | bool (b : Bool)
  | num (q : Rat)
  | str (s : List Char)
  | arr (elems : List Json)
  | obj (fields : List (List Char × Json))

/-- Property access `j.key` on a parsed JSON value: only objects have
(non-index) string properties; for duplicate keys `JSON.parse` keeps the
last binding. -/
def jget (j : Json) (key : List Char) : Option Json :=
  match j with
  | Json.obj fields =>
    match fields.reverse.find? (fun f => f.1 = key) with
    | some f => some f.2
    | none => none
  | _ => none

/-- ECMAScript truthiness of a parsed JSON value (`NaN` cannot arise from
`JSON.parse`). -/
def jTruthy : Json → Bool
  | Json.null => false
  | Json.bool b => b
  | Json.num q => !(q = 0)
  | Json.str s => !(s = [])
  | Json.arr _ => true
  | Json.obj _ => true

/-- Value of a digit character. -/
def digitVal (c : Char) : Nat := c.val.toNat - 48

/-- Is `c` a decimal digit? -/
def isDigitCh (c : Char) : Bool := '0' ≤ c && c ≤ '9'

/-- Is `c` a hexadecimal digit? -/
def isHexCh (c : Char) : Bool :=
  isDigitCh c || ('a' ≤ c && c ≤ 'f') || ('A' ≤ c && c ≤ 'F')

/-- Value of a hexadecimal digit character. -/
def hexVal (c : Char) : Nat :=
  if isDigitCh c then digitVal c
  else if 'a' ≤ c && c ≤ 'f' then c.val.toNat - 87
  else c.val.toNat - 55

/-- Accumulate a run of decimal digits.  Returns the value, the number of
digits consumed, and the rest. -/
def takeDigits : List Char → Nat → Nat → Nat × Nat × List Char
  | [], acc, n => (acc, n, [])
  | c :: rest, acc, n =>
    if isDigitCh c then takeDigits rest (acc * 10 + digitVal c) (n + 1)
    else (acc, n, c :: rest)

/-- Ten to an integer power, as a rational. -/
def pow10 (e : Int) : Rat :=
  if 0 ≤ e then ((10 : Rat) ^ e.toNat) else 1 / ((10 : Rat) ^ (-e).toNat)

/-- Parse a JSON number (grammar `-? int frac? exp?`); returns its exact
rational value and the remaining input. -/
def parseNum (cs : List Char) : Option (Rat × List Char) :=
  let (sgn, cs1) :=
    match cs with
    | '-' :: rest => ((-1 : Rat), rest)
    | _ => ((1 : Rat), cs)
  match cs1 with
  | [] => none
  | c :: _ =>
    if !isDigitCh c then none
    else
      -- int part: '0' alone, or [1-9] digit*
      let (ip, cs2) :=
        if c = '0' then ((0 : Nat), cs1.drop 1)
        else
          let (v, _, r) := takeDigits cs1 0 0
          (v, r)
      -- frac part
      let (fv, fl, cs3) :=
        match cs2 with
        | '.' :: rest =>
          match rest with
          | [] => (0, 0, ('.' : Char) :: rest)
          | d :: _ =>
            if isDigitCh d then
              let (v, n, r) := takeDigits rest 0 0
              (v, n, r)
            else (0, 0, ('.' : Char) :: rest)
        | _ => (0, 0, cs2)
      -- a '.' must be followed by at least one digit
      if cs3.headD 'x' = '.' then none
      else
        -- exp part
        let expRes : Option (Int × List Char) :=
          match cs3 with
          | e :: rest =>
            if e = 'e' || e = 'E' then
              let (esgn, rest1) :=
                match rest with
                | '+' :: r => ((1 : Int), r)
                | '-' :: r => ((-1 : Int), r)
                | r => ((1 : Int), r)
              match rest1 with
              | [] => none
              | d :: _ =>
                if isDigitCh d then
                  let (v, _, r) := takeDigits rest1 0 0
                  some (esgn * (v : Int), r)
                else none
            else some (0, cs3)
          | [] => some (0, [])
        match expRes with
        | none => none
        | some (ex, cs4) =>
          let mant : Rat := (ip : Rat) + (fv : Rat) / pow10 (fl : Int)
          some (sgn * mant * pow10 ex, cs4)

/-- Decode a single-character escape (everything except `\\u`). -/
def escCh (e : Char) : Option Char :=
  if e = '"' then some '"'
  else if e = '\\' then some '\\'
  else if e = '/' then some '/'
  else if e = 'b' then some '\x08'
  else if e = 'f' then some '\x0c'
  else if e = 'n' then some '\n'
  else if e = 'r' then some '\r'
  else if e = 't' then some '\t'
  else none

/-- Parse the body of a JSON string literal (the opening quote already
consumed).  Control characters must be escaped; `\\uXXXX` produces the code
point`s character (lone surrogates are out of scope for the claims). -/
def parseJStr : List Char → Option (List Char × List Char)
  | [] => none
  | c :: rest =>
    if c = '"' then some ([], rest)
    else if c = '\\' then
      match rest with
      | [] => none
      | e :: rest2 =>
        if e = 'u' then
          match rest2 with
          | h1 :: h2 :: h3 :: h4 :: rest3 =>
            if isHexCh h1 && isHexCh h2 && isHexCh h3 && isHexCh h4 then
              (parseJStr rest3).map (fun p =>
                (Char.ofNat
                  (((hexVal h1 * 16 + hexVal h2) * 16 + hexVal h3) * 16 +
                    hexVal h4) :: p.1, p.2))
            else none
          | _ => none
        else
          match escCh e with
          | some ch => (parseJStr rest2).map (fun p => (ch :: p.1, p.2))
          | none => none
    else if c.val < 32 then none
    else (parseJStr rest).map (fun p => (c :: p.1, p.2))

mutual

/-- Parse one JSON value (after skipping leading JSON whitespace),
returning the value and the remaining input.  `fuel` only ensures
termination; `2·|input| + 8` always suffices. -/
def parseVal : Nat → List Char → Option (Json × List Char)
  | 0, _ => none
  | fuel + 1, cs =>
    match skipJsonWs cs with
    | [] => none
    | c :: rest =>
      if c = '"' then (parseJStr rest).map (fun p => (Json.str p.1, p.2))
      else if c = '\x7b' then parseObjBody fuel rest
      else if c = '[' then parseArrBody fuel rest
      else if listStartsWith ['t', 'r', 'u', 'e'] (c :: rest) then
        some (Json.bool true, (c :: rest).drop 4)
      else if listStartsWith ['f', 'a', 'l', 's', 'e'] (c :: rest) then
        some (Json.bool false, (c :: rest).drop 5)
      else if listStartsWith ['n', 'u', 'l', 'l'] (c :: rest) then
        some (Json.null, (c :: rest).drop 4)
      else (parseNum (c :: rest)).map (fun p => (Json.num p.1, p.2))

/-- Parse an object body (the `\x7b` already consumed). -/
def parseObjBody : Nat → List Char → Option (Json × List Char)
  | 0, _ => none
  | fuel + 1, cs =>
    match skipJsonWs cs with
    | [] => none
    | c :: rest =>
      if c = '\x7d' then some (Json.obj [], rest)
      else parseMembers (fuel + 1) (c :: rest) []

/-- Parse a non-empty member list of an object, then the closing brace. -/
def parseMembers : Nat → List Char → List (List Char × Json) →
    Option (Json × List Char)
  | 0, _, _ => none
  | fuel + 1, cs, acc =>
    match skipJsonWs cs with
    | [] => none
    | c :: rest =>
      if c = '"' then
        match parseJStr rest with
        | none => none
        | some (key, rest1) =>
          match skipJsonWs rest1 with
          | ':' :: rest2 =>
            match parseVal fuel rest2 with
            | none => none
            | some (v, rest3) =>
              match skipJsonWs rest3 with
              | ',' :: rest4 => parseMembers fuel rest4 (acc ++ [(key, v)])
              | '\x7d' :: rest4 => some (Json.obj (acc ++ [(key, v)]), rest4)
              | _ => none
          | _ => none
      else none

/-- Parse an array body (the `[` already consumed). -/
def parseArrBody : Nat → List Char → Option (Json × List Char)
  | 0, _ => none
  | fuel + 1, cs =>
    match skipJsonWs cs with
    | [] => none
    | c :: rest =>
      if c = ']' then some (Json.arr [], rest)
      else parseElems (fuel + 1) (c :: rest) []

/-- Parse a non-empty element list of an array, then the closing bracket. -/
def parseElems : Nat → List Char → List Json → Option (Json × List Char)
  | 0, _, _ => none
  | fuel + 1, cs, acc =>
    match parseVal fuel cs with
    | none => none
    | some (v, rest) =>
      match skipJsonWs rest with
      | ',' :: rest1 => parseElems fuel rest1 (acc ++ [v])
      | ']' :: rest1 => some (Json.arr (acc ++ [v]), rest1)
      | _ => none

end

/-- ECMAScript `JSON.parse`: the whole input must be one JSON value
surrounded only by JSON whitespace; any violation yields `none` (a thrown
`SyntaxError`). -/
def jsonParse (cs : List Char) : Option Json :=
  match parseVal (2 * cs.length + 8) cs with
  | some (v, rest) => if skipJsonWs rest = [] then some v else none
  | none => none

/-! ## `extractJSON` (src/scripts/lib/cli-wrapper.ts)

`extractJSON` tries three strategies in order:
1. `text.match(/` ```json `\s*([\s\S]*?)\s*` ``` `/)` and `JSON.parse` the
   capture;
2. `text.match(/(\x7b[\s\S]*\x7d|\[[\s\S]*\])/)` — note the greedy `[\s\S]*`:
   the leftmost match runs from the first opening brace (or bracket) that
   has a matching-type closer later, to the LAST such closer in the text —
   and `JSON.parse` the match;
3. `JSON.parse(text.trim())`;
returning `null` if all three fail. -/

/-- The literal fence opener searched for by strategy 1. -/
def fenceOpenStr : List Char := ("```json").toList

/-- The literal fence closer searched for by strategy 1. -/
def fenceCloseStr : List Char := ("```").toList

/-- The capture of `/` ```json `\s*([\s\S]*?)\s*` ``` `/` on `cs`, if the
regex matches: the leftmost `` ```json `` that still has a `` ``` `` after
it, capturing the text in between with surrounding `\s` stripped (the
greedy leading `\s*` and the lazy capture against the trailing `\s*`
produce exactly a both-sides trim of the enclosed text). -/
def fenceCapture : List Char → Option (List Char)
  | [] => none
  | c :: rest =>
    if listStartsWith fenceOpenStr (c :: rest) then
      match findSub fenceCloseStr ((c :: rest).drop 7) with
      | some k => some (trimJs (((c :: rest).drop 7).take k))
      | none => fenceCapture rest
    else fenceCapture rest

/-- Everything in `cs` up to and including the last occurrence of `ch`. -/
def upToLastIncl (ch : Char) (cs : List Char) : List Char :=
  ((cs.reverse.dropWhile (fun c => !(c = ch))).reverse)

/-- The leftmost match of `/(\x7b[\s\S]*\x7d|\[[\s\S]*\])/` on `cs`: from
the first `\x7b` with a later `\x7d` (or `[` with a later `]`) through the
last such closer (the `[\s\S]*` is greedy). -/
def braceSpan : List Char → Option (List Char)
  | [] => none
  | c :: rest =>
    if c = '\x7b' && rest.any (fun x => x = '\x7d') then
      some (c :: upToLastIncl '\x7d' rest)
    else if c = '[' && rest.any (fun x => x = ']') then
      some (c :: upToLastIncl ']' rest)
    else braceSpan rest

/-- `extractJSON` from src/scripts/lib/cli-wrapper.ts.  `none` is the
`null` result. -/
def extractJSON (cs : List Char) : Option Json :=
  match (fenceCapture cs).bind jsonParse with
  | some v => some v
  | none =>
    match (braceSpan cs).bind jsonParse with
    | some v => some v
    | none => jsonParse (trimJs cs)

/-- Strategy 2 as the claim words it: "the first top-level object/array
literal in the text" — the first position opening an object or array from
which a complete JSON value parses, yielding that value. -/
def firstTopLevelLit : List Char → Option Json
  | [] => none
  | c :: rest =>
    if c = '\x7b' || c = '[' then
      match parseVal (2 * (c :: rest).length + 8) (c :: rest) with
      | some (v, _) => some v
      | none => firstTopLevelLit rest
    else firstTopLevelLit rest

/-- The extraction pipeline exactly as the claim describes it: fenced block
first, then the first top-level object/array literal, then the entire
trimmed text. -/
def extractJSONSpecOrder (cs : List Char) : Option Json :=
  match (fenceCapture cs).bind jsonParse with
  | some v => some v
  | none =>
    match firstTopLevelLit cs with
    | some v => some v
    | none => jsonParse (trimJs cs)

/-- Does position `i` of `cs` start a span the second strategy's regex can
match: an opening brace with a later closing brace, or an opening bracket
with a later closing bracket? -/
def spanStartMatches (cs : List Char) (i : Nat) : Bool :=
  (cs.getD i ' ' = '\x7b' && (cs.drop (i + 1)).any (fun x => x = '\x7d')) ||
  (cs.getD i ' ' = '[' && (cs.drop (i + 1)).any (fun x => x = ']'))

/-- The amended description of strategy 2, written positionally: find the
first position opening a brace (bracket) span that closes later, and take
everything from there through the last matching closer. -/
def amendedSpan (cs : List Char) : Option (List Char) :=
  match (List.range cs.length).find? (spanStartMatches cs) with
  | none => none
  | some i =>
    let cl : Char := if cs.getD i ' ' = '\x7b' then '\x7d' else ']'
    some (upToLastIncl cl (cs.drop i))

/-- The extraction pipeline as amended: fenced block, then the greedy
first-opener-to-last-closer span, then the entire trimmed text. -/
def extractJSONAmendedSpec (cs : List Char) : Option Json :=
  match (fenceCapture cs).bind jsonParse with
  | some v => some v
  | none =>
    match (amendedSpan cs).bind jsonParse with
    | some v => some v
    | none => jsonParse (trimJs cs)

/-! ## CLI call results and the shared retry policy
(src/scripts/lib/cli-wrapper.ts) -/

/-- The resolved value of a CLI call (`CLIResponse` in cli-wrapper.ts); the
`rawOutput` field carries no behaviour and is omitted. -/
structure CLIResponse where
  success : Bool
  data : Option Json
  errMsg : Option (List Char)

/-- ECMAScript truthiness of the `data` field combined with `success`:
`!response.success || !response.data`. -/
def respFalsy (r : CLIResponse) : Bool :=
  !r.success ||
    (match r.data with
     | none => true
     | some j => !jTruthy j)

/-- Non-retryable error test of `retryWithBackoff`: the lower-cased message
contains `not found`, `authentication` or `auth`. -/
def nonRetryableMsg (msg : List Char) : Bool :=
  hasSub (("not found").toList) (toLowerStr msg) ||
  hasSub (("authentication").toList) (toLowerStr msg) ||
  hasSub (("auth").toList) (toLowerStr msg)

/-- Observable outcome of a `retryWithBackoff` run: how many times the
operation was attempted, the sleeps performed between attempts (in ms), and
the final result (`Except.error` is the raised error). -/
structure RetryOut (α : Type) where
  attempts : Nat
  delays : List Nat
  outcome : Except (List Char) α

/-- The retry loop of `retryWithBackoff`.  `ops k` is the outcome of the
k-th invocation of the operation; `fuel` is the number of loop iterations
left (`maxRetries - attempt`); when it reaches zero the loop has ended and
`lastError` is thrown (`lastError!` — `none` can only occur for
`maxRetries = 0`, modelled as throwing the empty message). -/
def retryAux {α : Type} (ops : Nat → Except (List Char) α)
    (maxRetries initialDelay : Nat) :
    Nat → Nat → Option (List Char) → RetryOut α
  | _, 0, lastErr => ⟨0, [], .error (lastErr.getD [])⟩
  | attempt, fuel + 1, _ =>
    match ops attempt with
    | .ok a => ⟨1, [], .ok a⟩
    | .error e =>
      if nonRetryableMsg e then ⟨1, [], .error e⟩
      else if attempt < maxRetries - 1 then
        let r := retryAux ops maxRetries initialDelay (attempt + 1) fuel (some e)
        ⟨r.attempts + 1, initialDelay * 2 ^ attempt :: r.delays, r.outcome⟩
      else
        let r := retryAux ops maxRetries initialDelay (attempt + 1) fuel (some e)
        ⟨r.attempts + 1, r.delays, r.outcome⟩

/-- `retryWithBackoff(fn, maxRetries, initialDelay)` from cli-wrapper.ts,
with the successive outcomes of `fn` given by `ops`. -/
def retryWithBackoff {α : Type} (ops : Nat → Except (List Char) α)
    (maxRetries initialDelay : Nat) : RetryOut α :=
  retryAux ops maxRetries initialDelay 0 maxRetries none

/-! ## Generation and critic scoring (src/scripts/lib/prompts.ts,
generate-single script)

The CLI transport (`callCLI`) always resolves — every failure path of
`callCodexCLI` returns a `CLIResponse` rather than throwing — so the code
after `retryWithBackoff` only ever sees a response value.  The oracles
below still allow `Except.error` at the `retryWithBackoff` interface so the
wrapper is modelled in full generality.

Dynamic parts of thrown error messages (the interpolated
`JSON.stringify(data)` / database error text) are elided or appended
verbatim; only the stable message prefixes are modelled. -/

/-- Field name `text`. -/
def keyText : List Char := ("text").toList

/-- Field name `connection`. -/
def keyConnection : List Char := ("connection").toList

/-- Field name `explanation`. -/
def keyExplanation : List Char := ("explanation").toList

/-- Field name `novelty`. -/
def keyNovelty : List Char := ("novelty").toList

/-- Field name `coherence`. -/
def keyCoherence : List Char := ("coherence").toList

/-- Field name `usefulness`. -/
def keyUsefulness : List Char := ("usefulness").toList

/-- The shared unwrap step of `generateConnection` and `scoreWithCritic`:
if `data.text` is a string, run `extractJSON` over it and replace `data`
with the extracted value when that value is truthy (`if (extracted)`). -/
def unwrapText (d0 : Json) : Json :=
  match jget d0 keyText with
  | some (Json.str t) =>
    match extractJSON t with
    | some e => if jTruthy e then e else d0
    | none => d0
  | _ => d0

/-- Truthiness of a possibly-absent field (`undefined` is falsy). -/
def truthyOpt : Option Json → Bool
  | none => false
  | some j => jTruthy j

/-- A critic score triple (fields of a `CriticScores` value). -/
structure CriticScores where
  novelty : Rat
  coherence : Rat
  usefulness : Rat
  deriving DecidableEq

/-- The neutral default score substituted on any critic failure. -/
def defaultScores : CriticScores := ⟨5, 5, 5⟩

/-- The final structured output a critic pass validates: `none` when the
call failed (`!response.success || !response.data`), otherwise the response
data after the text-unwrap step. -/
def criticFinalData (r : CLIResponse) : Option Json :=
  if respFalsy r then none
  else
    match r.data with
    | none => none
    | some d0 => some (unwrapText d0)

/-- The numeric validation of `scoreWithCritic`: all three fields must be
numbers (`typeof x === 'number'`) within `[1, 10]`; otherwise no valid
score triple exists. -/
def validateScores (d : Json) : Option CriticScores :=
  match jget d keyNovelty, jget d keyCoherence, jget d keyUsefulness with
  | some (Json.num n), some (Json.num c), some (Json.num u) =>
    if n < 1 || n > 10 || c < 1 || c > 10 || u < 1 || u > 10 then none
    else some ⟨n, c, u⟩
  | _, _, _ => none

/-- `scoreWithCritic` (either run — the two runs differ only in prompt
text and temperature, which do not affect validation), as a function of
the resolved CLI response: any failure or validation miss degrades to
`defaultScores`, otherwise the three numbers pass through unchanged. -/
def scoreWithCritic (r : CLIResponse) : CriticScores :=
  match criticFinalData r with
  | none => defaultScores
  | some d =>
    match validateScores d with
    | none => defaultScores
    | some s => s

/-- The two required-text-field checks of `generateConnection`:
`!connection || !explanation` on the final data. -/
def connFieldsMissing (d : Json) : Bool :=
  !(truthyOpt (jget d keyConnection) && truthyOpt (jget d keyExplanation))

/-- The validated payload of a generated connection. -/
structure ConnectionData where
  connection : Json
  explanation : Json

/-- Stable prefix of the transport-failure message of `generateConnection`
(the interpolated `response.error` is elided). -/
def msgFailedGenerate : List Char := ("Failed to generate connection").toList

/-- Stable prefix of the content-validation failure message of
`generateConnection` (the interpolated payload is elided). -/
def msgInvalidFormat : List Char :=
  ("Invalid connection response format").toList

/-- `generateConnection` from the generate-single script: one
`retryWithBackoff(() => callCLI(prompt, 0.8), 3, 2000)` round, then
extraction and the required-field check.  Returns the number of CLI calls
made together with the outcome; a missing or empty `connection` /
`explanation` raises `msgInvalidFormat` immediately — there is no further
generation attempt on any path. -/
def generateConnection (ops : Nat → Except (List Char) CLIResponse) :
    Nat × Except (List Char) ConnectionData :=
  let r := retryWithBackoff ops 3 2000
  (r.attempts,
    match r.outcome with
    | .error e => .error e
    | .ok resp =>
      if respFalsy resp then .error msgFailedGenerate
      else
        match resp.data with
        | none => .error msgFailedGenerate
        | some d0 =>
          let d := unwrapText d0
          match jget d keyConnection, jget d keyExplanation with
          | some cv, some ev =>
            if jTruthy cv && jTruthy ev then .ok ⟨cv, ev⟩
            else .error msgInvalidFormat
          | _, _ => .error msgInvalidFormat)

/-! ## Concept pair sampling (getUnusedConceptPair, concept-pairs module
concatenated into src/scripts/health-check.ts) -/

/-- A row of the `concepts` select `id, name, usage_count`. -/
structure ConceptRec where
  id : List Char
  name : List Char
  usage_count : Int

/-- A sampled pair (the `ConceptPair` interface). -/
structure ConceptPair where
  conceptAId : List Char
  conceptBId : List Char
  conceptA : List Char
  conceptB : List Char

/-- Decision oracles for one sampling run.  Oracles are indexed by the
`maxAttempts` value of the recursive call they serve (it strictly
decreases, so successive attempts get independent entries):
* `fetch k` — the 50-least-used-concepts query (`Except.error` = supabase
  error; the returned list is in the query's ascending-usage order);
* `randA k` / `randB k j` — the values of `Math.floor(Math.random() *
  concepts.length)` for the first draw and the j-th draw of concept B;
* `conns k` — the `(concept_a_id, concept_b_id)` rows of the `connections`
  table visible to the duplicate check of attempt `k`. -/
structure SamplerEnv where
  fetch : Nat → Except (List Char) (List ConceptRec)
  randA : Nat → Nat
  randB : Nat → Nat → Nat
  conns : Nat → Except (List Char) (List (List Char × List Char))

/-- Index into the fetched concept list (`concepts[r]`, with `r` reduced
mod the length so the model is total; draws are in range). -/
def cIdx (cs : List ConceptRec) (r : Nat) : ConceptRec :=
  cs.getD (r % cs.length) ⟨[], [], 0⟩

/-- The `while (conceptB.id === conceptA.id && attempts < 10)` redraw loop:
`j` is the index of the next redraw, `fuel` the redraws left (10 at
entry). -/
def redrawLoop (cs : List ConceptRec) (aid : List Char) (rB : Nat → Nat) :
    Nat → Nat → ConceptRec → ConceptRec
  | _, 0, b => b
  | j, fuel + 1, b =>
    if b.id = aid then redrawLoop cs aid rB (j + 1) fuel (cIdx cs (rB (j + 1)))
    else b

/-- `getUnusedConceptPair(maxAttempts)` (bounded recursive version in
src/scripts/health-check.ts lines 412–478).  Budget exhaustion returns
`Except.ok none` (the `null` return after the `maxAttempts <= 0` guard);
thrown errors carry their stable message prefixes. -/
def getUnusedConceptPair (env : SamplerEnv) : Nat → Except (List Char) (Option ConceptPair)
  | 0 => .ok none
  | m + 1 =>
    match env.fetch (m + 1) with
    | .error e => .error ((("Database error fetching concepts: ").toList) ++ e)
    | .ok concepts =>
      if concepts.length < 2 then .error (("Insufficient concepts").toList)
      else
        let a := cIdx concepts (env.randA (m + 1))
        let b := redrawLoop concepts a.id (env.randB (m + 1)) 0 10
          (cIdx concepts (env.randB (m + 1) 0))
        if b.id = a.id then .ok none
        else
          match env.conns (m + 1) with
          | .error e =>
            .error ((("Database error checking duplicates: ").toList) ++ e)
          | .ok conlist =>
            let found := conlist.filter (fun c =>
              (c.1 = a.id && c.2 = b.id) || (c.1 = b.id && c.2 = a.id))
            if 2 ≤ found.length then
              -- `.maybeSingle()` errors when more than one row matches
              .error (("Database error checking duplicates: multiple rows").toList)
            else if found.length = 1 then getUnusedConceptPair env m
            else .ok (some ⟨a.id, b.id, a.name, b.name⟩)

/-- Does attempt `k` (the call with this `maxAttempts` value) find a
duplicate and therefore recurse?  Mirrors one unrolling of
`getUnusedConceptPair`. -/
def attemptFindsDuplicate (env : SamplerEnv) (k : Nat) : Bool :=
  match env.fetch k with
  | .error _ => false
  | .ok concepts =>
    if concepts.length < 2 then false
    else
      let a := cIdx concepts (env.randA k)
      let b := redrawLoop concepts a.id (env.randB k) 0 10
        (cIdx concepts (env.randB k 0))
      if b.id = a.id then false
      else
        match env.conns k with
        | .error _ => false
        | .ok conlist =>
          (conlist.filter (fun c =>
            (c.1 = a.id && c.2 = b.id) || (c.1 = b.id && c.2 = a.id))).length = 1

/-! ## The generate+score cycle (generateSingleConnection) -/

/-- One row of the two-row `critic_evaluations` insert. -/
structure EvalRow where
  connection_id : List Char
  critic_model : List Char
  novelty : Rat
  coherence : Rat
  usefulness : Rat

/-- A datastore write request issued by the cycle, in issue order. -/
inductive DbEvent where
  | connReq (conceptAId conceptBId : List Char) (connText explText : Json)
  | evalReq (rows : List EvalRow)
  | incReq (name : List Char)

/-- Oracles for one `generateSingleConnection` cycle:
* `pair` — the outcome of `getUnusedConceptPair()` (abstracted; its
  internals are the sampler model above);
* `genOps` — the CLI-call outcomes of the generation round;
* `criticOps1` / `criticOps2` — the CLI-call outcomes of the two critic
  rounds (each goes through `retryWithBackoff(·, 3, 2000)`);
* `insertConnection` — the `connections` insert (`Except.ok` = new row id);
* `insertEvaluations` — the single two-row `critic_evaluations` insert
  (one statement, hence atomic over both rows);
* `incUsage` — the `increment_concept_usage` RPC, per concept name. -/
structure CycleEnv where
  pair : Except (List Char) (Option ConceptPair)
  genOps : Nat → Except (List Char) CLIResponse
  criticOps1 : Nat → Except (List Char) CLIResponse
  criticOps2 : Nat → Except (List Char) CLIResponse
  insertConnection : Except (List Char) (List Char)
  insertEvaluations : List EvalRow → Except (List Char) Unit
  incUsage : List Char → Except (List Char) Unit

/-- Critic-model tag of the first run. -/
def tagRun1 : List Char := ("gpt-4-run-1").toList

/-- Critic-model tag of the second run. -/
def tagRun2 : List Char := ("gpt-4-run-2").toList

/-- `generateSingleConnection` from the generate-single script: sample,
generate, store the Connection, score with both critics (concurrently —
they issue no datastore writes), store both evaluations in one insert,
then increment both usage counts.  Returns the issued datastore write
requests in order, and the overall outcome (`Except.error` = the cycle's
`catch` path, which exits with code 1). -/
def generateSingleConnection (env : CycleEnv) :
    List DbEvent × Except (List Char) Unit :=
  match env.pair with
  | .error e => ([], .error e)
  | .ok none => ([], .error (("Failed to find unused concept pair").toList))
  | .ok (some pair) =>
    match (generateConnection env.genOps).2 with
    | .error e => ([], .error e)
    | .ok cd =>
      let ev1 := DbEvent.connReq pair.conceptAId pair.conceptBId
        cd.connection cd.explanation
      match env.insertConnection with
      | .error e =>
        ([ev1], .error ((("Failed to store connection: ").toList) ++ e))
      | .ok connectionId =>
        match (retryWithBackoff env.criticOps1 3 2000).outcome,
            (retryWithBackoff env.criticOps2 3 2000).outcome with
        | .error e, _ => ([ev1], .error e)
        | .ok _, .error e => ([ev1], .error e)
        | .ok resp1, .ok resp2 =>
          let s1 := scoreWithCritic resp1
          let s2 := scoreWithCritic resp2
          let rows : List EvalRow :=
            [⟨connectionId, tagRun1, s1.novelty, s1.coherence, s1.usefulness⟩,
             ⟨connectionId, tagRun2, s2.novelty, s2.coherence, s2.usefulness⟩]
          let ev2 := DbEvent.evalReq rows
          match env.insertEvaluations rows with
          | .error e =>
            ([ev1, ev2],
             .error ((("Failed to store critic evaluations: ").toList) ++ e))
          | .ok _ =>
            let ev3 := DbEvent.incReq pair.conceptA
            match env.incUsage pair.conceptA with
            | .error e =>
              ([ev1, ev2, ev3],
               .error ((("Failed to increment usage: ").toList) ++ e))
            | .ok _ =>
              let ev4 := DbEvent.incReq pair.conceptB
              match env.incUsage pair.conceptB with
              | .error e =>
                ([ev1, ev2, ev3, ev4],
                 .error ((("Failed to increment usage: ").toList) ++ e))
              | .ok _ => ([ev1, ev2, ev3, ev4], .ok ())

/-! ## Health monitor (src/scripts/health-check.ts)

Each check's threshold logic is modelled as a pure function of the
measured quantity (counts are naturals; the utilization rate is the exact
rational `totalConnections / maxPossiblePairs` — for integer operands the
IEEE double comparisons against the literals 0.6/0.8 agree with the exact
rational comparisons, both sides rounding to nearest identically). -/

/-- A single check's level. -/
inductive CheckLevel where
  | pass
  | warn
  | fail
  deriving DecidableEq

/-- Aggregate status of a health run (`HealthCheckResult.status`). -/
inductive OverallStatus where
  | healthy
  | warning
  | critical
  deriving DecidableEq

/-- Threshold logic of `checkPoolSize`: the level assigned to the count of
unrated connections. -/
def checkPoolSize (unratedCount : Nat) : CheckLevel :=
  if unratedCount < 50 then .fail
  else if unratedCount < 100 then .warn
  else .pass

/-- Threshold logic of `checkConceptUtilization`: the level assigned to
`stats.utilizationRate`. -/
def checkConceptUtilization (utilizationRate : Rat) : CheckLevel :=
  if utilizationRate > 0.8 then .fail
  else if utilizationRate > 0.6 then .warn
  else .pass

/-- Status aggregation of `runHealthChecks`: critical when some check
failed, else warning when some check warned, else healthy. -/
def runHealthChecksStatus (checks : List CheckLevel) : OverallStatus :=
  if checks.any (fun c => c = .fail) then .critical
  else if checks.any (fun c => c = .warn) then .warning
  else .healthy

/-- Exit-code mapping of `main()` in health-check.ts. -/
def exitCodeOf : OverallStatus → Nat
  | .critical => 1
  | .warning => 2
  | .healthy => 0

/-- Severity order fail > warn > pass (spec side). -/
def levelSeverity : CheckLevel → Nat
  | .pass => 0
  | .warn => 1
  | .fail => 2

/-- Worst level of a list under fail > warn > pass (spec side). -/
def worstLevel (ls : List CheckLevel) : CheckLevel :=
  ls.foldl (fun acc l => if levelSeverity acc < levelSeverity l then l else acc)
    .pass

/-- The status corresponding to a worst level (spec side). -/
def statusOfWorst : CheckLevel → OverallStatus
  | .fail => .critical
  | .warn => .warning
  | .pass => .healthy

/-! ## The `increment_concept_usage` RPC
(src/supabase/migrations/20251026000003_rpc_functions.sql, against the
`concepts` table of 20251026000001_initial_schema.sql)

The schema declares `category TEXT NOT NULL` with no default, and the RPC
inserts only `(name, usage_count)`.  PostgreSQL evaluates NOT NULL
constraints on the proposed tuple (`ExecConstraints`) *before* the
`ON CONFLICT` arbiter-index check, so the upsert path is irrelevant: the
statement raises a 23502 not-null violation whether or not the name
already exists. -/

/-- A row of the `concepts` table (columns relevant to the RPC; nullable
columns are `Option`). -/
structure ConceptTableRow where
  name : List Char
  description : Option (List Char)
  category : Option (List Char)
  usage_count : Int

/-- The error raised for a null in a NOT NULL column. -/
def notNullViolation : List Char :=
  ("null value in column category violates not-null constraint").toList

/-- PostgreSQL `INSERT … ON CONFLICT (name) DO UPDATE` against `concepts`:
NOT NULL constraints on the proposed tuple are checked first; only then is
the conflict on the unique `name` resolved into the update. -/
def insertConceptOnConflictName (table : List ConceptTableRow)
    (proposed : ConceptTableRow) (upd : ConceptTableRow → ConceptTableRow) :
    Except (List Char) (List ConceptTableRow) :=
  if proposed.category = none then .error notNullViolation
  else if table.any (fun r => r.name = proposed.name) then
    .ok (table.map (fun r => if r.name = proposed.name then upd r else r))
  else .ok (table ++ [proposed])

/-- `increment_concept_usage(concept_name)`: `INSERT INTO concepts (name,
usage_count) VALUES (concept_name, 1) ON CONFLICT (name) DO UPDATE SET
usage_count = concepts.usage_count + 1` — the proposed tuple carries no
`category`. -/
def increment_concept_usage (table : List ConceptTableRow)
    (concept_name : List Char) : Except (List Char) (List ConceptTableRow) :=
  insertConceptOnConflictName table
    ⟨concept_name, none, none, 1⟩
    (fun r => { r with usage_count := r.usage_count + 1 })

/-! ## Concrete scenarios used by counterexamples and witnesses -/

/-- Sampler oracles where every attempt draws the only two concepts and the
`connections` table already holds that pair: every attempt is a duplicate,
so any budget is exhausted. -/
def envC1 : SamplerEnv where
  fetch := fun _ =>
    .ok [⟨("id1").toList, ("recursion").toList, 0⟩,
         ⟨("id2").toList, ("mirrors").toList, 0⟩]
  randA := fun _ => 0
  randB := fun _ _ => 1
  conns := fun _ => .ok [((("id1").toList), (("id2").toList))]

/-- Sampler oracles with two concepts and an empty `connections` table: the
first attempt succeeds. -/
def envC9 : SamplerEnv where
  fetch := fun _ =>
    .ok [⟨("id1").toList, ("recursion").toList, 0⟩,
         ⟨("id2").toList, ("mirrors").toList, 0⟩]
  randA := fun _ => 0
  randB := fun _ _ => 1
  conns := fun _ => .ok []

/-- The pair `envC9` samples. -/
def pC9 : ConceptPair :=
  ⟨("id1").toList, ("id2").toList, ("recursion").toList, ("mirrors").toList⟩

/-- A generation CLI oracle whose (first) response is a transport success
carrying `\x7b"connection": "X"\x7d` — the `explanation` field is missing. -/
def opsC5 : Nat → Except (List Char) CLIResponse := fun _ =>
  .ok ⟨true, some (Json.obj [(keyConnection, Json.str (("X").toList))]), none⟩

/-- A critic response whose scores are `\x7bnovelty: 11, coherence: 5,
usefulness: 5\x7d` — novelty is out of range. -/
def respN11 : CLIResponse :=
  ⟨true,
   some (Json.obj [(keyNovelty, Json.num 11), (keyCoherence, Json.num 5),
                   (keyUsefulness, Json.num 5)]),
   none⟩

/-- A critic response that fails transport (`success: false`). -/
def respFailC3 : CLIResponse := ⟨false, none, none⟩

/-- A critic response with valid in-range scores 7/8/9. -/
def respGoodC3 : CLIResponse :=
  ⟨true,
   some (Json.obj [(keyNovelty, Json.num 7), (keyCoherence, Json.num 8),
                   (keyUsefulness, Json.num 9)]),
   none⟩

/-- Cycle oracles for a fully successful run: the sampler yields `pC9`,
generation returns a valid payload on the first call, both critics return
data without score fields (degrading to `defaultScores`), and every
datastore write succeeds. -/
def envC6 : CycleEnv where
  pair := .ok (some pC9)
  genOps := fun _ =>
    .ok ⟨true,
         some (Json.obj [(keyConnection, Json.str (("X").toList)),
                         (keyExplanation, Json.str (("Y").toList))]),
         none⟩
  criticOps1 := fun _ => .ok ⟨true, some (Json.obj []), none⟩
  criticOps2 := fun _ => .ok ⟨true, some (Json.obj []), none⟩
  insertConnection := .ok (("cid-1").toList)
  insertEvaluations := fun _ => .ok ()
  incUsage := fun _ => .ok ()

/-- The evaluation rows `envC6`'s cycle stores. -/
def rowsC6 : List EvalRow :=
  [⟨("cid-1").toList, tagRun1, 5, 5, 5⟩,
   ⟨("cid-1").toList, tagRun2, 5, 5, 5⟩]

/-- A `concepts` table holding one fully-populated row named `recursion`. -/
def tableC10 : List ConceptTableRow :=
  [⟨("recursion").toList, none, some (("programming").toList), 3⟩]

/-! ## Theorems -/

/-- C7: the Health Monitor threshold checks have exactly these boundary
semantics: an unrated count of 49 fails, 50 through 99 warns (50 is not
fail), 100 passes; a utilization rate of exactly 0.6 passes, warn holds
exactly for rates strictly between 0.6 and up to 0.8, and fail exactly for
rates strictly above 0.8. -/
theorem claim_C7 :
    checkPoolSize 49 = CheckLevel.fail ∧
    checkPoolSize 50 = CheckLevel.warn ∧
    (∀ n : Nat, 50 ≤ n → n ≤ 99 → checkPoolSize n = CheckLevel.warn) ∧
    checkPoolSize 99 = CheckLevel.warn ∧
    checkPoolSize 100 = CheckLevel.pass ∧
    checkConceptUtilization 0.6 = CheckLevel.pass ∧
    (∀ q : Rat, checkConceptUtilization q = CheckLevel.warn ↔
      0.6 < q ∧ q ≤ 0.8) ∧
    (∀ q : Rat, checkConceptUtilization q = CheckLevel.fail ↔ 0.8 < q) := by
  refine ⟨rfl, rfl, ?_, rfl, rfl, by unfold checkConceptUtilization; norm_num, ?_, ?_⟩
  · intro n h1 h2
    have hx : ¬n < 50 := by omega
    have hy : n < 100 := by omega
    simp [checkPoolSize, hx, hy]
  · intro q
    unfold checkConceptUtilization
    split_ifs with h1 h2
    · exact iff_of_false (by simp) (fun hq => absurd h1 (by linarith [hq.2]))
    · exact iff_of_true rfl ⟨h2, le_of_not_lt h1⟩
    · exact iff_of_false (by simp) (fun hq => absurd hq.1 h2)
  · intro q
    unfold checkConceptUtilization
    split_ifs with h1 h2
    · exact iff_of_true rfl h1
    · exact iff_of_false (by simp) h1
    · exact iff_of_false (by simp) h1

/-- Witness for C7 at concrete inputs. -/
theorem claim_C7_witness :
    checkPoolSize 75 = CheckLevel.warn ∧
    checkConceptUtilization 0.7 = CheckLevel.warn ∧
    checkConceptUtilization 0.9 = CheckLevel.fail :=
  ⟨claim_C7.2.2.1 75 (by norm_num) (by norm_num),
   (claim_C7.2.2.2.2.2.2.1 0.7).mpr ⟨by norm_num, by norm_num⟩,
   (claim_C7.2.2.2.2.2.2.2 0.9).mpr (by norm_num)⟩

/-- C8: the aggregate health status of five check results equals the worst
individual level under fail > warn > pass, and the exit code maps
healthy→0, warning→2, critical→1. -/
theorem claim_C8 :
    (∀ c1 c2 c3 c4 c5 : CheckLevel,
      runHealthChecksStatus [c1, c2, c3, c4, c5] =
        statusOfWorst (worstLevel [c1, c2, c3, c4, c5])) ∧
    exitCodeOf OverallStatus.healthy = 0 ∧
    exitCodeOf OverallStatus.warning = 2 ∧
    exitCodeOf OverallStatus.critical = 1 := by
  refine ⟨?_, rfl, rfl, rfl⟩
  intro c1 c2 c3 c4 c5
  cases c1 <;> cases c2 <;> cases c3 <;> cases c4 <;> cases c5 <;> rfl

/-- C10: evaluating `increment_concept_usage` at its failing inputs.  The
RPC's own documentation says it increments `usage_count` (creating the
concept with `usage_count = 1` when absent), but since `concepts.category`
is NOT NULL without default and the insert omits it, PostgreSQL raises a
not-null violation before `ON CONFLICT` resolution — for present and
absent names alike; nothing is ever incremented or created. -/
theorem claim_C10 :
    increment_concept_usage tableC10 (("recursion").toList) =
      Except.error notNullViolation ∧
    increment_concept_usage [] (("mirrors").toList) =
      Except.error notNullViolation :=
  ⟨rfl, rfl⟩

/-- C3: a critic pass returns exactly the neutral default `(5, 5, 5)` when
the call fails or the final structured output fails numeric validation
(any field non-numeric or outside `[1, 10]`); in-range numeric scores pass
through unchanged (never clamped or rounded); concretely, novelty 11
yields `(5, 5, 5)` and not `(10, 5, 5)`. -/
theorem claim_C3 :
    (∀ r : CLIResponse, criticFinalData r = none →
        scoreWithCritic r = defaultScores) ∧
    (∀ (r : CLIResponse) (d : Json), criticFinalData r = some d →
        validateScores d = none → scoreWithCritic r = defaultScores) ∧
    (∀ (d : Json) (n c u : Rat),
        jget d keyNovelty = some (Json.num n) →
        jget d keyCoherence = some (Json.num c) →
        jget d keyUsefulness = some (Json.num u) →
        (n < 1 ∨ 10 < n ∨ c < 1 ∨ 10 < c ∨ u < 1 ∨ 10 < u) →
        validateScores d = none) ∧
    (∀ (d : Json),
        (jget d keyNovelty).bind (fun j => match j with
          | Json.num q => some q
          | _ => none) = none →
        validateScores d = none) ∧
    (∀ (r : CLIResponse) (d : Json) (n c u : Rat),
        criticFinalData r = some d →
        jget d keyNovelty = some (Json.num n) →
        jget d keyCoherence = some (Json.num c) →
        jget d keyUsefulness = some (Json.num u) →
        1 ≤ n → n ≤ 10 → 1 ≤ c → c ≤ 10 → 1 ≤ u → u ≤ 10 →
        scoreWithCritic r = ⟨n, c, u⟩) ∧
    scoreWithCritic respN11 = defaultScores ∧
    scoreWithCritic respN11 ≠ ⟨10, 5, 5⟩ := by
  refine ⟨?_, ?_, ?_, ?_, ?_, rfl, ?_⟩
  · intro r h
    unfold scoreWithCritic
    rw [h]
  · intro r d h1 h2
    simp only [scoreWithCritic, h1, h2]
  · intro d n c u h1 h2 h3 hout
    unfold validateScores
    rw [h1, h2, h3]
    have hcond : (decide (n < 1) || decide (n > 10) || decide (c < 1) ||
        decide (c > 10) || decide (u < 1) || decide (u > 10)) = true := by
      rcases hout with h | h | h | h | h | h <;> simp [h]
    simp [hcond]
  · intro d h
    unfold validateScores
    cases hn : jget d keyNovelty with
    | none => rfl
    | some j =>
      cases j <;> try rfl
      rw [hn] at h
      simp at h
  · intro r d n c u h0 h1 h2 h3 hn1 hn2 hc1 hc2 hu1 hu2
    simp only [scoreWithCritic, h0]
    unfold validateScores
    rw [h1, h2, h3]
    have hcond : (decide (n < 1) || decide (n > 10) || decide (c < 1) ||
        decide (c > 10) || decide (u < 1) || decide (u > 10)) = false := by
      simp only [Bool.or_eq_false_iff, decide_eq_false_iff_not, not_lt]
      exact ⟨⟨⟨⟨⟨hn1, hn2⟩, hc1⟩, hc2⟩, hu1⟩, hu2⟩
    simp [hcond]
  · intro h
    have h5 : scoreWithCritic respN11 = defaultScores := rfl
    rw [h5] at h
    exact absurd (congrArg CriticScores.novelty h) (by norm_num [defaultScores])

/-- Witness for C3: a failed call degrades to the default, and valid
scores 7/8/9 pass through unchanged. -/
theorem claim_C3_witness :
    scoreWithCritic respFailC3 = defaultScores ∧
    scoreWithCritic respGoodC3 = ⟨7, 8, 9⟩ :=
  ⟨claim_C3.1 respFailC3 rfl,
   claim_C3.2.2.2.2.1 respGoodC3
     (Json.obj [(keyNovelty, Json.num 7), (keyCoherence, Json.num 8),
                (keyUsefulness, Json.num 9)])
     7 8 9 rfl rfl rfl rfl (by norm_num) (by norm_num) (by norm_num)
     (by norm_num) (by norm_num) (by norm_num)⟩

/-- If every attempt from `attempt` on fails retryably, the retry loop
performs exactly `fuel` more attempts, sleeping `initialDelay * 2^k` after
each non-final attempt `k`, and raises the error of the final attempt. -/
theorem retryAux_allFail {α : Type} (ops : Nat → Except (List Char) α)
    (mR iD : Nat) (es : Nat → List Char)
    (hall : ∀ k, k < mR → ops k = .error (es k) ∧
      nonRetryableMsg (es k) = false) :
    ∀ (fuel attempt : Nat) (le : Option (List Char)),
      attempt + fuel = mR → 1 ≤ fuel →
      retryAux ops mR iD attempt fuel le =
        ⟨fuel, (List.range' attempt (fuel - 1)).map (fun k => iD * 2 ^ k),
          .error (es (mR - 1))⟩ := by
  intro fuel
  induction fuel with
  | zero => intro attempt le h h1; omega
  | succ f ihf =>
    intro attempt le h h1
    have hlt : attempt < mR := by omega
    obtain ⟨hops, hretry⟩ := hall attempt hlt
    rw [retryAux, hops]
    simp only [hretry, Bool.false_eq_true, if_false]
    rcases Nat.eq_zero_or_pos f with hf0 | hfpos
    · subst hf0
      have hml : mR = attempt + 1 := by omega
      subst hml
      have hnot : ¬attempt < attempt + 1 - 1 := by omega
      rw [if_neg hnot, retryAux]
      rfl
    · have hyes : attempt < mR - 1 := by omega
      rw [if_pos hyes, ihf (attempt + 1) (some (es attempt)) (by omega) hfpos]
      have hr : List.range' attempt f =
          attempt :: List.range' (attempt + 1) (f - 1) := by
        obtain ⟨g, rfl⟩ : ∃ g, f = g + 1 := ⟨f - 1, by omega⟩
        simp [List.range'_succ]
      have hf1 : f + 1 - 1 = f := by omega
      rw [hf1, hr]
      simp

/-- The retry loop never makes more attempts than it has fuel. -/
theorem retryAux_attempts_le {α : Type} (ops : Nat → Except (List Char) α)
    (mR iD : Nat) :
    ∀ (fuel attempt : Nat) (le : Option (List Char)),
      (retryAux ops mR iD attempt fuel le).attempts ≤ fuel := by
  intro fuel
  induction fuel with
  | zero => intro attempt le; rw [retryAux]
  | succ f ihf =>
    intro attempt le
    rw [retryAux]
    cases ops attempt with
    | ok a =>
      show 1 ≤ f + 1
      omega
    | error e =>
      dsimp only
      split
      · show 1 ≤ f + 1
        omega
      · split
        · show (retryAux ops mR iD (attempt + 1) f (some e)).attempts + 1 ≤ f + 1
          exact Nat.succ_le_succ (ihf (attempt + 1) (some e))
        · show (retryAux ops mR iD (attempt + 1) f (some e)).attempts + 1 ≤ f + 1
          exact Nat.succ_le_succ (ihf (attempt + 1) (some e))

/-- C4: with `maxAttempts ≥ 1`, a first failure in the non-retryable
category (authentication / not-found markers) ends the run after exactly
one attempt, re-raising that error with no delays; an operation that fails
retryably on every attempt is attempted exactly `maxAttempts` times, with
the strictly doubling delays `initialDelay * 2^k` (k = 0 … maxAttempts−2)
between attempts, and the last error is raised. -/
theorem claim_C4 :
    (∀ (α : Type) (ops : Nat → Except (List Char) α) (mR iD : Nat)
        (e : List Char),
        1 ≤ mR → ops 0 = .error e → nonRetryableMsg e = true →
        retryWithBackoff ops mR iD = ⟨1, [], .error e⟩) ∧
    (∀ (α : Type) (ops : Nat → Except (List Char) α) (mR iD : Nat)
        (es : Nat → List Char),
        1 ≤ mR →
        (∀ k, k < mR → ops k = .error (es k) ∧
          nonRetryableMsg (es k) = false) →
        retryWithBackoff ops mR iD =
          ⟨mR, (List.range (mR - 1)).map (fun k => iD * 2 ^ k),
            .error (es (mR - 1))⟩) := by
  constructor
  · intro α ops mR iD e h1 hops hnr
    obtain ⟨f, rfl⟩ : ∃ f, mR = f + 1 := ⟨mR - 1, by omega⟩
    rw [retryWithBackoff, retryAux, hops]
    simp [hnr]
  · intro α ops mR iD es h1 hall
    rw [retryWithBackoff,
      retryAux_allFail ops mR iD es hall mR 0 none (by omega) h1,
      List.range_eq_range']

/-- Witness for C4: an authentication failure is attempted once with no
delays; a persistently failing retryable operation with `maxAttempts = 3`,
`initialDelay = 1000` is attempted 3 times with delays 1000ms then
2000ms. -/
theorem claim_C4_witness :
    retryWithBackoff
        (fun _ => (.error (("Authentication failed").toList) :
          Except (List Char) Unit)) 3 1000 =
      ⟨1, [], .error (("Authentication failed").toList)⟩ ∧
    retryWithBackoff
        (fun _ => (.error (("boom").toList) :
          Except (List Char) Unit)) 3 1000 =
      ⟨3, [1000, 2000], .error (("boom").toList)⟩ := by
  constructor
  · exact claim_C4.1 Unit (fun _ => .error (("Authentication failed").toList))
      3 1000 (("Authentication failed").toList) (by norm_num) rfl (by decide)
  · exact (claim_C4.2 Unit (fun _ => .error (("boom").toList))
      3 1000 (fun _ => ("boom").toList) (by norm_num)
      (fun k hk => ⟨rfl, by
        show nonRetryableMsg (("boom").toList) = false
        decide⟩)).trans rfl

/-- C9: every successful result of `getUnusedConceptPair` has distinct
concept ids, and at the attempt that produced it the duplicate check read a
connection list containing the pair in neither orientation. -/
theorem claim_C9 :
    ∀ (env : SamplerEnv) (m : Nat) (p : ConceptPair),
      getUnusedConceptPair env m = .ok (some p) →
      p.conceptAId ≠ p.conceptBId ∧
      ∃ (k : Nat) (conlist : List (List Char × List Char)),
        1 ≤ k ∧ k ≤ m ∧ env.conns k = .ok conlist ∧
        ∀ c ∈ conlist,
          ¬((c.1 = p.conceptAId ∧ c.2 = p.conceptBId) ∨
            (c.1 = p.conceptBId ∧ c.2 = p.conceptAId)) := by
  intro env m
  induction m with
  | zero =>
    intro p h
    rw [getUnusedConceptPair] at h
    cases h
  | succ m ih =>
    intro p h
    simp only [getUnusedConceptPair] at h
    rcases hfetch : env.fetch (m + 1) with e | concepts
    · rw [hfetch] at h
      simp at h
    · simp only [hfetch] at h
      by_cases hlen : concepts.length < 2
      · rw [if_pos hlen] at h
        simp at h
      · rw [if_neg hlen] at h
        by_cases hb : (redrawLoop concepts (cIdx concepts (env.randA (m + 1))).id
            (env.randB (m + 1)) 0 10 (cIdx concepts (env.randB (m + 1) 0))).id =
            (cIdx concepts (env.randA (m + 1))).id
        · rw [if_pos hb] at h
          simp at h
        · rw [if_neg hb] at h
          rcases hconns : env.conns (m + 1) with e | conlist
          · simp only [hconns] at h
            exact Except.noConfusion h
          · simp only [hconns] at h
            by_cases h2 : 2 ≤ (List.filter (fun c =>
                decide (c.1 = (cIdx concepts (env.randA (m + 1))).id) &&
                decide (c.2 = (redrawLoop concepts
                  (cIdx concepts (env.randA (m + 1))).id (env.randB (m + 1)) 0 10
                  (cIdx concepts (env.randB (m + 1) 0))).id) ||
                decide (c.1 = (redrawLoop concepts
                  (cIdx concepts (env.randA (m + 1))).id (env.randB (m + 1)) 0 10
                  (cIdx concepts (env.randB (m + 1) 0))).id) &&
                decide (c.2 = (cIdx concepts (env.randA (m + 1))).id)) conlist).length
            · rw [if_pos h2] at h
              exact Except.noConfusion h
            · rw [if_neg h2] at h
              by_cases h1 : (List.filter (fun c =>
                  decide (c.1 = (cIdx concepts (env.randA (m + 1))).id) &&
                  decide (c.2 = (redrawLoop concepts
                    (cIdx concepts (env.randA (m + 1))).id (env.randB (m + 1)) 0 10
                    (cIdx concepts (env.randB (m + 1) 0))).id) ||
                  decide (c.1 = (redrawLoop concepts
                    (cIdx concepts (env.randA (m + 1))).id (env.randB (m + 1)) 0 10
                    (cIdx concepts (env.randB (m + 1) 0))).id) &&
                  decide (c.2 = (cIdx concepts (env.randA (m + 1))).id)) conlist).length = 1
              · rw [if_pos h1] at h
                obtain ⟨hne, k, cl, hk1, hkm, hc, hall⟩ := ih p h
                exact ⟨hne, k, cl, hk1, Nat.le_succ_of_le hkm, hc, hall⟩
              · rw [if_neg h1] at h
                injection h with h'
                injection h' with h''
                subst h''
                have hempty : (List.filter (fun c =>
                    decide (c.1 = (cIdx concepts (env.randA (m + 1))).id) &&
                    decide (c.2 = (redrawLoop concepts
                      (cIdx concepts (env.randA (m + 1))).id (env.randB (m + 1)) 0 10
                      (cIdx concepts (env.randB (m + 1) 0))).id) ||
                    decide (c.1 = (redrawLoop concepts
                      (cIdx concepts (env.randA (m + 1))).id (env.randB (m + 1)) 0 10
                      (cIdx concepts (env.randB (m + 1) 0))).id) &&
                    decide (c.2 = (cIdx concepts (env.randA (m + 1))).id)) conlist) = [] := by
                  have hlen0 : (List.filter (fun c =>
                      decide (c.1 = (cIdx concepts (env.randA (m + 1))).id) &&
                      decide (c.2 = (redrawLoop concepts
                        (cIdx concepts (env.randA (m + 1))).id (env.randB (m + 1)) 0 10
                        (cIdx concepts (env.randB (m + 1) 0))).id) ||
                      decide (c.1 = (redrawLoop concepts
                        (cIdx concepts (env.randA (m + 1))).id (env.randB (m + 1)) 0 10
                        (cIdx concepts (env.randB (m + 1) 0))).id) &&
                      decide (c.2 = (cIdx concepts (env.randA (m + 1))).id)) conlist).length = 0 := by
                    omega
                  exact List.length_eq_zero.mp hlen0
                refine ⟨fun hid => hb (hid.symm), m + 1, conlist, by omega,
                  le_refl _, hconns, ?_⟩
                intro c hcmem
                have hcf := List.filter_eq_nil_iff.mp hempty c hcmem
                simp only [Bool.or_eq_true, Bool.and_eq_true, decide_eq_true_eq,
                  not_or, not_and] at hcf ⊢
                tauto


/-- Witness for C9: with two concepts and an empty connections table, the
first attempt succeeds with the pair `pC9`, which satisfies the
invariants. -/
theorem claim_C9_witness :
    pC9.conceptAId ≠ pC9.conceptBId ∧
    ∃ (k : Nat) (conlist : List (List Char × List Char)),
      1 ≤ k ∧ k ≤ 1 ∧ envC9.conns k = .ok conlist ∧
      ∀ c ∈ conlist,
        ¬((c.1 = pC9.conceptAId ∧ c.2 = pC9.conceptBId) ∨
          (c.1 = pC9.conceptBId ∧ c.2 = pC9.conceptAId)) :=
  claim_C9 envC9 1 pC9 rfl

/-- Counterexample to C1: with `envC1` every attempt draws the only two
concepts and finds their connection already stored, so the retry budget of
50 is exhausted — and the operation returns the plain empty result
`Except.ok none` (the `null` return), not an error of any kind, let alone
a distinct DepletionError. -/
theorem claim_C1_counterexample :
    getUnusedConceptPair envC1 50 = .ok none ∧
    ¬∃ e, getUnusedConceptPair envC1 50 = .error e := by
  constructor
  · rfl
  · rintro ⟨e, he⟩
    have h0 : getUnusedConceptPair envC1 50 = .ok none := rfl
    rw [h0] at he
    cases he

/-- C1 as amended: exhausting the duplicate-retry budget makes
`getUnusedConceptPair` return `null` (`Except.ok none`) rather than raise
a DepletionError-style error — a zero budget returns `ok none`, and each
attempt that finds a duplicate just recurses with one budget unit less,
so a run of duplicates ends in `ok none`. -/
theorem claim_C1_amended :
    (∀ env : SamplerEnv, getUnusedConceptPair env 0 = .ok none) ∧
    (∀ (env : SamplerEnv) (m : Nat),
        attemptFindsDuplicate env (m + 1) = true →
        getUnusedConceptPair env (m + 1) = getUnusedConceptPair env m) := by
  constructor
  · intro env
    rfl
  · intro env m h
    unfold attemptFindsDuplicate at h
    simp only [getUnusedConceptPair]
    rcases hfetch : env.fetch (m + 1) with e | concepts
    · rw [hfetch] at h
      simp at h
    · simp only [hfetch] at h ⊢
      by_cases hlen : concepts.length < 2
      · rw [if_pos hlen] at h
        cases h
      · rw [if_neg hlen] at h ⊢
        by_cases hb : (redrawLoop concepts (cIdx concepts (env.randA (m + 1))).id
            (env.randB (m + 1)) 0 10 (cIdx concepts (env.randB (m + 1) 0))).id =
            (cIdx concepts (env.randA (m + 1))).id
        · rw [if_pos hb] at h
          cases h
        · rw [if_neg hb] at h ⊢
          rcases hconns : env.conns (m + 1) with e | conlist
          · simp only [hconns] at h
            cases h
          · simp only [hconns] at h ⊢
            have h1 : (List.filter (fun c =>
                decide (c.1 = (cIdx concepts (env.randA (m + 1))).id) &&
                decide (c.2 = (redrawLoop concepts
                  (cIdx concepts (env.randA (m + 1))).id (env.randB (m + 1)) 0 10
                  (cIdx concepts (env.randB (m + 1) 0))).id) ||
                decide (c.1 = (redrawLoop concepts
                  (cIdx concepts (env.randA (m + 1))).id (env.randB (m + 1)) 0 10
                  (cIdx concepts (env.randB (m + 1) 0))).id) &&
                decide (c.2 = (cIdx concepts (env.randA (m + 1))).id))
                conlist).length = 1 := of_decide_eq_true h
            have h2 : ¬2 ≤ (List.filter (fun c =>
                decide (c.1 = (cIdx concepts (env.randA (m + 1))).id) &&
                decide (c.2 = (redrawLoop concepts
                  (cIdx concepts (env.randA (m + 1))).id (env.randB (m + 1)) 0 10
                  (cIdx concepts (env.randB (m + 1) 0))).id) ||
                decide (c.1 = (redrawLoop concepts
                  (cIdx concepts (env.randA (m + 1))).id (env.randB (m + 1)) 0 10
                  (cIdx concepts (env.randB (m + 1) 0))).id) &&
                decide (c.2 = (cIdx concepts (env.randA (m + 1))).id))
                conlist).length := by omega
            rw [if_neg h2, if_pos h1]

/-- Witness for C1 (amended): a zero budget yields `ok none`, and with
`envC1` (where attempt 4 concretely finds a duplicate) the budget steps
down from 4 to 3. -/
theorem claim_C1_witness :
    getUnusedConceptPair envC1 0 = .ok none ∧
    getUnusedConceptPair envC1 4 = getUnusedConceptPair envC1 3 :=
  ⟨claim_C1_amended.1 envC1, claim_C1_amended.2 envC1 3 (by decide)⟩

/-- Counterexample to C5: with `opsC5` the first CLI call succeeds at the
transport level but the extracted structure has no `explanation` field.
`generateConnection` performs exactly one generation — one CLI call, one
extraction — and surfaces the terminal invalid-format error immediately;
the claimed single retry of the whole generation (which would make a
second call, `opsC5` being defined at every index) never happens. -/
theorem claim_C5_counterexample :
    generateConnection opsC5 = (1, .error msgInvalidFormat) := rfl

/-- C5 as amended: when the transport round succeeds but the final
structured output has a missing or empty (falsy) `connection` or
`explanation` field, `generateConnection` raises the invalid-format error
immediately, with no retry of the generation; the only retries are the
transport-level `retryWithBackoff` attempts (at most 3) around the CLI
call, and the total number of CLI calls equals those attempts. -/
theorem claim_C5_amended :
    ∀ (ops : Nat → Except (List Char) CLIResponse) (resp : CLIResponse)
      (d : Json),
      (retryWithBackoff ops 3 2000).outcome = .ok resp →
      respFalsy resp = false →
      resp.data = some d →
      connFieldsMissing (unwrapText d) = true →
      generateConnection ops =
        ((retryWithBackoff ops 3 2000).attempts, .error msgInvalidFormat) ∧
      (retryWithBackoff ops 3 2000).attempts ≤ 3 := by
  intro ops resp d hout hfal hdata hmiss
  constructor
  · simp only [generateConnection]
    rw [hout]
    simp only [hfal, Bool.false_eq_true, if_false, hdata]
    unfold connFieldsMissing at hmiss
    rcases hc : jget (unwrapText d) keyConnection with _ | cv
    · rcases he : jget (unwrapText d) keyExplanation with _ | ev <;> rfl
    · rcases he : jget (unwrapText d) keyExplanation with _ | ev
      · rfl
      · rw [hc, he] at hmiss
        simp only [truthyOpt, Bool.not_and] at hmiss
        have hff : (jTruthy cv && jTruthy ev) = false := by
          cases hcv : jTruthy cv <;> cases hev : jTruthy ev <;> simp_all
        simp [hff]
  · exact retryAux_attempts_le ops 3 2000 3 0 none

/-- Witness for C5 (amended) at `opsC5`. -/
theorem claim_C5_witness :
    generateConnection opsC5 =
      ((retryWithBackoff opsC5 3 2000).attempts, .error msgInvalidFormat) ∧
    (retryWithBackoff opsC5 3 2000).attempts ≤ 3 :=
  claim_C5_amended opsC5
    ⟨true, some (Json.obj [(keyConnection, Json.str (("X").toList))]), none⟩
    (Json.obj [(keyConnection, Json.str (("X").toList))])
    rfl rfl rfl rfl

/-- C6: in every generate+score cycle, any stored evaluation request is
preceded in the write order by the Connection insert; the evaluations are
stored together as one two-row insert tagged `gpt-4-run-1` / `gpt-4-run-2`
for the same connection id; the cycle succeeds only if that two-row insert
was issued and succeeded; and a failing evaluation insert makes the whole
cycle fail. -/
theorem claim_C6 :
    ∀ env : CycleEnv,
      (∀ (i : Nat) (rows : List EvalRow),
          (generateSingleConnection env).1.get? i =
            some (DbEvent.evalReq rows) →
          ∃ (j : Nat) (a b : List Char) (ct ce : Json),
            j < i ∧ (generateSingleConnection env).1.get? j =
              some (DbEvent.connReq a b ct ce)) ∧
      (∀ rows : List EvalRow,
          DbEvent.evalReq rows ∈ (generateSingleConnection env).1 →
          ∃ (cid : List Char) (s1 s2 : CriticScores),
            rows = [⟨cid, tagRun1, s1.novelty, s1.coherence, s1.usefulness⟩,
                    ⟨cid, tagRun2, s2.novelty, s2.coherence, s2.usefulness⟩]) ∧
      ((generateSingleConnection env).2 = .ok () →
          ∃ rows : List EvalRow,
            DbEvent.evalReq rows ∈ (generateSingleConnection env).1 ∧
            env.insertEvaluations rows = .ok ()) ∧
      (∀ (rows : List EvalRow) (e : List Char),
          DbEvent.evalReq rows ∈ (generateSingleConnection env).1 →
          env.insertEvaluations rows = .error e →
          ∃ e2, (generateSingleConnection env).2 = .error e2) := by
  intro env
  rcases hp : env.pair with e | op
  · have hrun : generateSingleConnection env = ([], .error e) := by
      simp only [generateSingleConnection, hp]
    rw [hrun]
    refine ⟨?_, ?_, ?_, ?_⟩ <;> simp
  rcases op with _ | pair
  · have hrun : generateSingleConnection env =
        ([], .error (("Failed to find unused concept pair").toList)) := by
      simp only [generateSingleConnection, hp]
    rw [hrun]
    refine ⟨?_, ?_, ?_, ?_⟩ <;> simp
  rcases hgen : (generateConnection env.genOps).2 with e | cd
  · have hrun : generateSingleConnection env = ([], .error e) := by
      simp only [generateSingleConnection, hp, hgen]
    rw [hrun]
    refine ⟨?_, ?_, ?_, ?_⟩ <;> simp
  rcases hic : env.insertConnection with e | cid
  · have hrun : generateSingleConnection env =
        ([DbEvent.connReq pair.conceptAId pair.conceptBId
            cd.connection cd.explanation],
         .error ((("Failed to store connection: ").toList) ++ e)) := by
      simp only [generateSingleConnection, hp, hgen, hic]
    rw [hrun]
    refine ⟨?_, ?_, ?_, ?_⟩
    · intro i rows h
      rcases i with _ | i <;> simp_all
    · intro rows h
      simp_all
    · intro h
      simp_all
    · intro rows e2 h
      simp_all
  rcases hr1 : (retryWithBackoff env.criticOps1 3 2000).outcome with e | resp1
  · have hrun : generateSingleConnection env =
        ([DbEvent.connReq pair.conceptAId pair.conceptBId
            cd.connection cd.explanation], .error e) := by
      simp only [generateSingleConnection, hp, hgen, hic, hr1]
    rw [hrun]
    refine ⟨?_, ?_, ?_, ?_⟩
    · intro i rows h
      rcases i with _ | i <;> simp_all
    · intro rows h
      simp_all
    · intro h
      simp_all
    · intro rows e2 h
      simp_all
  rcases hr2 : (retryWithBackoff env.criticOps2 3 2000).outcome with e | resp2
  · have hrun : generateSingleConnection env =
        ([DbEvent.connReq pair.conceptAId pair.conceptBId
            cd.connection cd.explanation], .error e) := by
      simp only [generateSingleConnection, hp, hgen, hic, hr1, hr2]
    rw [hrun]
    refine ⟨?_, ?_, ?_, ?_⟩
    · intro i rows h
      rcases i with _ | i <;> simp_all
    · intro rows h
      simp_all
    · intro h
      simp_all
    · intro rows e2 h
      simp_all
  rcases hins : env.insertEvaluations
      [⟨cid, tagRun1, (scoreWithCritic resp1).novelty,
        (scoreWithCritic resp1).coherence, (scoreWithCritic resp1).usefulness⟩,
       ⟨cid, tagRun2, (scoreWithCritic resp2).novelty,
        (scoreWithCritic resp2).coherence, (scoreWithCritic resp2).usefulness⟩]
      with e | u
  · have hrun : generateSingleConnection env =
        ([DbEvent.connReq pair.conceptAId pair.conceptBId
            cd.connection cd.explanation,
          DbEvent.evalReq
            [⟨cid, tagRun1, (scoreWithCritic resp1).novelty,
              (scoreWithCritic resp1).coherence,
              (scoreWithCritic resp1).usefulness⟩,
             ⟨cid, tagRun2, (scoreWithCritic resp2).novelty,
              (scoreWithCritic resp2).coherence,
              (scoreWithCritic resp2).usefulness⟩]],
         .error ((("Failed to store critic evaluations: ").toList) ++ e)) := by
      simp only [generateSingleConnection, hp, hgen, hic, hr1, hr2, hins]
    rw [hrun]
    refine ⟨?_, ?_, ?_, ?_⟩
    · intro i rows h
      rcases i with _ | i
      · simp_all
      · exact ⟨0, pair.conceptAId, pair.conceptBId, cd.connection,
          cd.explanation, by omega, rfl⟩
    · intro rows h
      simp only [List.mem_cons, List.mem_singleton, List.not_mem_nil,
        or_false] at h
      rcases h with h | h
      · exact absurd h (by simp)
      · injection h with h'
        exact ⟨cid, scoreWithCritic resp1, scoreWithCritic resp2, h'⟩
    · intro h
      simp_all
    · intro rows e2 hmem herr
      exact ⟨(("Failed to store critic evaluations: ").toList) ++ e, rfl⟩
  rcases hia : env.incUsage pair.conceptA with e | hu1
  · have hrun : generateSingleConnection env =
        ([DbEvent.connReq pair.conceptAId pair.conceptBId
            cd.connection cd.explanation,
          DbEvent.evalReq
            [⟨cid, tagRun1, (scoreWithCritic resp1).novelty,
              (scoreWithCritic resp1).coherence,
              (scoreWithCritic resp1).usefulness⟩,
             ⟨cid, tagRun2, (scoreWithCritic resp2).novelty,
              (scoreWithCritic resp2).coherence,
              (scoreWithCritic resp2).usefulness⟩],
          DbEvent.incReq pair.conceptA],
         .error ((("Failed to increment usage: ").toList) ++ e)) := by
      simp only [generateSingleConnection, hp, hgen, hic, hr1, hr2, hins, hia]
    rw [hrun]
    refine ⟨?_, ?_, ?_, ?_⟩
    · intro i rows h
      rcases i with _ | _ | i
      · simp_all
      · exact ⟨0, pair.conceptAId, pair.conceptBId, cd.connection,
          cd.explanation, by omega, rfl⟩
      · rcases i with _ | i <;> simp_all
    · intro rows h
      simp only [List.mem_cons, List.not_mem_nil, or_false] at h
      rcases h with h | h | h
      · exact absurd h (by simp)
      · injection h with h'
        exact ⟨cid, scoreWithCritic resp1, scoreWithCritic resp2, h'⟩
      · exact absurd h (by simp)
    · intro h
      simp_all
    · intro rows e2 hmem herr
      simp only [List.mem_cons, List.not_mem_nil, or_false] at hmem
      rcases hmem with h | h | h
      · exact absurd h (by simp)
      · injection h with h'
        rw [h'] at herr
        rw [hins] at herr
        cases herr
      · exact absurd h (by simp)
  rcases hib : env.incUsage pair.conceptB with e | hu2
  · have hrun : generateSingleConnection env =
        ([DbEvent.connReq pair.conceptAId pair.conceptBId
            cd.connection cd.explanation,
          DbEvent.evalReq
            [⟨cid, tagRun1, (scoreWithCritic resp1).novelty,
              (scoreWithCritic resp1).coherence,
              (scoreWithCritic resp1).usefulness⟩,
             ⟨cid, tagRun2, (scoreWithCritic resp2).novelty,
              (scoreWithCritic resp2).coherence,
              (scoreWithCritic resp2).usefulness⟩],
          DbEvent.incReq pair.conceptA,
          DbEvent.incReq pair.conceptB],
         .error ((("Failed to increment usage: ").toList) ++ e)) := by
      simp only [generateSingleConnection, hp, hgen, hic, hr1, hr2, hins, hia,
        hib]
    rw [hrun]
    refine ⟨?_, ?_, ?_, ?_⟩
    · intro i rows h
      rcases i with _ | _ | i
      · simp_all
      · exact ⟨0, pair.conceptAId, pair.conceptBId, cd.connection,
          cd.explanation, by omega, rfl⟩
      · rcases i with _ | _ | i <;> simp_all
    · intro rows h
      simp only [List.mem_cons, List.not_mem_nil, or_false] at h
      rcases h with h | h | h | h
      · exact absurd h (by simp)
      · injection h with h'
        exact ⟨cid, scoreWithCritic resp1, scoreWithCritic resp2, h'⟩
      · exact absurd h (by simp)
      · exact absurd h (by simp)
    · intro h
      simp_all
    · intro rows e2 hmem herr
      simp only [List.mem_cons, List.not_mem_nil, or_false] at hmem
      rcases hmem with h | h | h | h
      · exact absurd h (by simp)
      · injection h with h'
        rw [h'] at herr
        rw [hins] at herr
        cases herr
      · exact absurd h (by simp)
      · exact absurd h (by simp)
  have hrun : generateSingleConnection env =
      ([DbEvent.connReq pair.conceptAId pair.conceptBId
          cd.connection cd.explanation,
        DbEvent.evalReq
            [⟨cid, tagRun1, (scoreWithCritic resp1).novelty,
              (scoreWithCritic resp1).coherence,
              (scoreWithCritic resp1).usefulness⟩,
             ⟨cid, tagRun2, (scoreWithCritic resp2).novelty,
              (scoreWithCritic resp2).coherence,
              (scoreWithCritic resp2).usefulness⟩],
        DbEvent.incReq pair.conceptA,
        DbEvent.incReq pair.conceptB],
       .ok ()) := by
    simp only [generateSingleConnection, hp, hgen, hic, hr1, hr2, hins, hia,
      hib]
  rw [hrun]
  refine ⟨?_, ?_, ?_, ?_⟩
  · intro i rows h
    rcases i with _ | _ | i
    · simp_all
    · exact ⟨0, pair.conceptAId, pair.conceptBId, cd.connection,
        cd.explanation, by omega, rfl⟩
    · rcases i with _ | _ | i <;> simp_all
  · intro rows h
    simp only [List.mem_cons, List.not_mem_nil, or_false] at h
    rcases h with h | h | h | h
    · exact absurd h (by simp)
    · injection h with h'
      exact ⟨cid, scoreWithCritic resp1, scoreWithCritic resp2, h'⟩
    · exact absurd h (by simp)
    · exact absurd h (by simp)
  · intro h
    refine ⟨[⟨cid, tagRun1, (scoreWithCritic resp1).novelty,
        (scoreWithCritic resp1).coherence, (scoreWithCritic resp1).usefulness⟩,
       ⟨cid, tagRun2, (scoreWithCritic resp2).novelty,
        (scoreWithCritic resp2).coherence, (scoreWithCritic resp2).usefulness⟩], by simp, ?_⟩
    cases hu1
    rw [hins]
  · intro rows e2 hmem herr
    simp only [List.mem_cons, List.not_mem_nil, or_false] at hmem
    rcases hmem with h | h | h | h
    · exact absurd h (by simp)
    · injection h with h'
      rw [h'] at herr
      rw [hins] at herr
      cases herr
    · exact absurd h (by simp)
    · exact absurd h (by simp)


/-- Witness for C6: in the fully successful run `envC6` the evaluation
request sits at position 1 of the write order, and a Connection insert
precedes it. -/
theorem claim_C6_witness :
    ∃ (j : Nat) (a b : List Char) (ct ce : Json),
      j < 1 ∧ (generateSingleConnection envC6).1.get? j =
        some (DbEvent.connReq a b ct ce) :=
  (claim_C6 envC6).1 1 rowsC6 rfl

theorem upToLastIncl_cons (ch c : Char) (l : List Char)
    (h : l.any (fun x => x = ch) = true) :
    upToLastIncl ch (c :: l) = c :: upToLastIncl ch l := by
  unfold upToLastIncl
  rw [List.reverse_cons, List.dropWhile_append]
  have hch : ch ∈ l.reverse := by
    rw [List.mem_reverse]
    obtain ⟨x, hx, hxe⟩ := List.any_eq_true.mp h
    exact (of_decide_eq_true hxe) ▸ hx
  have hne : (l.reverse.dropWhile (fun x => !(x = ch))).isEmpty = false := by
    cases hemp : (l.reverse.dropWhile (fun x => !(x = ch))).isEmpty
    · rfl
    · exfalso
      have hnil := List.isEmpty_iff.mp hemp
      have hall := List.dropWhile_eq_nil_iff.mp hnil ch hch
      simp at hall
  rw [hne]
  simp

theorem spanStartMatches_cons (c : Char) (rest : List Char) (i : Nat) :
    spanStartMatches (c :: rest) (i + 1) = spanStartMatches rest i := by
  simp only [spanStartMatches, List.getD_cons_succ]
  have hd : (c :: rest).drop (i + 1 + 1) = rest.drop (i + 1) :=
    List.drop_succ_cons
  rw [hd]

theorem braceSpan_eq_amendedSpan : ∀ cs : List Char,
    braceSpan cs = amendedSpan cs := by
  intro cs
  induction cs with
  | nil => rfl
  | cons c rest ih =>
    unfold amendedSpan
    rw [List.length_cons, List.range_succ_eq_map, List.find?_cons]
    by_cases h0 : spanStartMatches (c :: rest) 0 = true
    · rw [h0]
      have h0' := h0
      simp only [spanStartMatches, List.getD_cons_zero, List.drop_succ_cons,
        List.drop_zero, Bool.or_eq_true, Bool.and_eq_true,
        decide_eq_true_eq] at h0'
      rcases h0' with ⟨hc, ha⟩ | ⟨hc, ha⟩
      · subst hc
        rw [braceSpan]
        simp [ha, upToLastIncl_cons _ _ _ ha]
      · subst hc
        rw [braceSpan]
        simp [ha, upToLastIncl_cons _ _ _ ha]
    · rw [Bool.not_eq_true] at h0
      rw [h0]
      have hsh : (fun i => spanStartMatches (c :: rest) (Nat.succ i)) =
          spanStartMatches rest := by
        funext i
        exact spanStartMatches_cons c rest i
      rw [List.find?_map]
      have hcomp : (spanStartMatches (c :: rest)) ∘ Nat.succ =
          spanStartMatches rest := by
        funext i
        exact spanStartMatches_cons c rest i
      rw [hcomp]
      have h0' := h0
      simp only [spanStartMatches, List.getD_cons_zero, List.drop_succ_cons,
        List.drop_zero, Bool.or_eq_false_iff, Bool.and_eq_false_iff] at h0'
      obtain ⟨hA, hB⟩ := h0'
      rw [braceSpan]
      have hA' : (decide (c = '\x7b') && rest.any (fun x => x = '\x7d')) =
          false := by
        rcases hA with h | h
        · simp [h]
        · simp [h]
      have hB' : (decide (c = '[') && rest.any (fun x => x = ']')) = false := by
        rcases hB with h | h
        · simp [h]
        · simp [h]
      rw [if_neg (by simp [hA']), if_neg (by simp [hB']), ih, amendedSpan]
      cases hfind : (List.range rest.length).find? (spanStartMatches rest) with
      | none => simp
      | some i =>
        simp [List.getD_cons_succ, List.drop_succ_cons]

/-- Counterexample to C2: on `\x7b"a": 1\x7d x \x7b"b": 2\x7d` the claimed
pipeline (strategy 2 = "the first top-level object/array literal") yields
`\x7b"a": 1\x7d`, but `extractJSON` — whose second strategy is the greedy
regex spanning from the first opening brace to the LAST closing brace —
fails to parse that span and, the whole text being unparseable too,
returns `null`. -/
theorem claim_C2_counterexample :
    extractJSON (("\x7b\"a\": 1\x7d x \x7b\"b\": 2\x7d").toList) = none ∧
    extractJSONSpecOrder (("\x7b\"a\": 1\x7d x \x7b\"b\": 2\x7d").toList) =
      some (Json.obj [((("a").toList), Json.num 1)]) ∧
    extractJSON (("\x7b\"a\": 1\x7d x \x7b\"b\": 2\x7d").toList) ≠
      extractJSONSpecOrder (("\x7b\"a\": 1\x7d x \x7b\"b\": 2\x7d").toList) := by
  refine ⟨by with_unfolding_all rfl, by with_unfolding_all rfl, ?_⟩
  intro h
  have h1 : extractJSON (("\x7b\"a\": 1\x7d x \x7b\"b\": 2\x7d").toList) =
      none := by with_unfolding_all rfl
  have h2 : extractJSONSpecOrder
      (("\x7b\"a\": 1\x7d x \x7b\"b\": 2\x7d").toList) =
      some (Json.obj [((("a").toList), Json.num 1)]) := by with_unfolding_all rfl
  rw [h1, h2] at h
  cases h

/-- C2 as amended: the strategies run in strict precedence order with
strategy 2 being the greedy span from the first opening brace/bracket
(that has a matching-type closer) to the last such closer — `extractJSON`
agrees with that pipeline on every input; a valid fenced block yields
exactly its content, raw valid JSON text yields the same parsed value, and
an unparseable string yields the definite `null` result. -/
theorem claim_C2_amended :
    (∀ t : List Char, extractJSON t = extractJSONAmendedSpec t) ∧
    extractJSON (("Here you go:\n```json\n\x7b\"connection\":\"X\",\"explanation\":\"Y\"\x7d\n```\nEnjoy!").toList) =
      some (Json.obj [(keyConnection, Json.str (("X").toList)),
                      (keyExplanation, Json.str (("Y").toList))]) ∧
    extractJSON (("\x7b\"a\": 1\x7d").toList) =
      some (Json.obj [((("a").toList), Json.num 1)]) ∧
    jsonParse (("\x7b\"a\": 1\x7d").toList) =
      some (Json.obj [((("a").toList), Json.num 1)]) ∧
    extractJSON (("hello world").toList) = none := by
  refine ⟨?_, by with_unfolding_all rfl, by with_unfolding_all rfl,
    by with_unfolding_all rfl, by with_unfolding_all rfl⟩
  intro t
  unfold extractJSON extractJSONAmendedSpec
  rw [braceSpan_eq_amendedSpan]
